import Mathlib

/-!
Shallow embedding of the Party Brain Socket.IO game server
(`server.js`, authoritative version): player registry, real-time team-vote
aggregation, scenario lifecycle (start, scoring, completion), LLM content
generation with fallbacks, and the socket event handlers.

JavaScript numbers are modelled as rationals (`ℚ`); the square root used in
the accuracy computation does not exist in `ℚ`, so the Euclidean distance is
passed as an explicit value `d` characterised by `0 ≤ d ∧ d ^ 2 = distSq`.
JS `Map`s are modelled as association lists preserving insertion order, with
`Map.set` updating an existing key in place.
-/

namespace PartyBrain

/-- `MAX_PLAYERS` from the server: the fixed room capacity. -/
def MAX_PLAYERS : ℕ := 8

/-- `MAX_ROUNDS` from the server. -/
def MAX_ROUNDS : ℕ := 4

/-- `ROUND_DURATIONS = [30000, 20000, 10000, 5000]` (milliseconds). -/
def ROUND_DURATIONS : List ℕ := [30000, 20000, 10000, 5000]

/-- A registered player, as built by the `player:join` handler. -/
structure Player where
  id : String
  socketId : String
  name : String
  role : String
  x : ℚ
  y : ℚ
  gameWidth : ℚ
  gameHeight : ℚ
deriving DecidableEq, Repr

/-- JS `a || b` on numbers: `0` (and absence) is falsy and yields the default. -/
def jsOrNum (v : Option ℚ) (d : ℚ) : ℚ :=
  match v with
  | none => d
  | some x => if x = 0 then d else x

/-- JS `Math.max(-1, Math.min(1, v))`, the clamp used by the vote aggregator. -/
def clamp (v : ℚ) : ℚ := max (-1) (min 1 v)

/-- Per-player normalized axes from `updateTeamVote` / `endCurrentScenario`:
`gameWidth = player.gameWidth || 1200`, `centerX = gameWidth / 2`,
`mapWidth = gameWidth - margin * 2` with `margin = 60`,
`axis1 = clamp((x - centerX) / (mapWidth / 2))`, analogously for the y axis
with default height `800`. -/
def playerAxes (p : Player) : ℚ × ℚ :=
  let gameWidth := if p.gameWidth = 0 then 1200 else p.gameWidth
  let gameHeight := if p.gameHeight = 0 then 800 else p.gameHeight
  let centerX := gameWidth / 2
  let centerY := gameHeight / 2
  let mapWidth := gameWidth - 60 * 2
  let mapHeight := gameHeight - 60 * 2
  (clamp ((p.x - centerX) / (mapWidth / 2)),
   clamp ((p.y - centerY) / (mapHeight / 2)))

/-- `updateTeamVote`: sums every registered player's clamped normalized axes,
counts the players, and divides by the count when it is positive. Returns the
team point together with the sample count. -/
def updateTeamVote (ps : List Player) : (ℚ × ℚ) × ℕ :=
  let teamAxis1 := (ps.map (fun p => (playerAxes p).1)).sum
  let teamAxis2 := (ps.map (fun p => (playerAxes p).2)).sum
  let playerCount := ps.length
  if 0 < playerCount then
    ((teamAxis1 / playerCount, teamAxis2 / playerCount), playerCount)
  else
    ((teamAxis1, teamAxis2), playerCount)

/-- The spec's normalization formula, written from the spec's words:
`axis1 = clamp((x − viewportWidth/2) / ((viewportWidth − 2·margin)/2), −1, 1)`
with `margin = 60`, using the player's own viewport width. -/
def specAxis1 (p : Player) : ℚ :=
  clamp ((p.x - p.gameWidth / 2) / ((p.gameWidth - 2 * 60) / 2))

/-- The spec's normalization formula for the second axis, from the player's
`y` coordinate and the player's own viewport height. -/
def specAxis2 (p : Player) : ℚ :=
  clamp ((p.y - p.gameHeight / 2) / ((p.gameHeight - 2 * 60) / 2))

/-- Squared Euclidean distance between the team point and the ideal point,
the argument of `Math.sqrt` in `endCurrentScenario`. -/
def distSq (t i : ℚ × ℚ) : ℚ := (t.1 - i.1) ^ 2 + (t.2 - i.2) ^ 2

/-- `accuracy = Math.max(0, 100 - (distance * 50))` from `endCurrentScenario`,
parametrized by the Euclidean distance `d` (the square root is characterised
by `0 ≤ d ∧ d ^ 2 = distSq` since it does not exist in `ℚ`). -/
def accuracyOf (d : ℚ) : ℚ := max 0 (100 - d * 50)

/-- `Math.max(-1, Math.min(1, x))` on a JS number that may be `NaN`
(`none`): both `Math.min` and `Math.max` return `NaN` when an argument is
`NaN`, so `NaN` propagates through the clamp. -/
def jsClampNum : Option ℚ → Option ℚ
  | none => none
  | some q => some (clamp q)

/-- JS `Map.set`: update the value in place when the key exists (insertion
order preserved), otherwise append the new entry. -/
def jsMapSet {β : Type} (m : List (String × β)) (k : String) (v : β) :
    List (String × β) :=
  if m.any (fun e => e.1 = k) then
    m.map (fun e => if e.1 = k then (k, v) else e)
  else
    m ++ [(k, v)]

/-- JS `Map.delete`: remove the entry for the key. -/
def jsMapDelete {β : Type} (m : List (String × β)) (k : String) :
    List (String × β) :=
  m.filter (fun e => e.1 ≠ k)

/-- JS `Map.get`: the value stored at the key, if any. -/
def jsMapGet {β : Type} (m : List (String × β)) (k : String) : Option β :=
  (m.find? (fun e => e.1 = k)).map (fun e => e.2)

/-- The player registry: the server's `players` map (playerId → Player). -/
abbrev Registry := List (String × Player)

/-- The `player:join` payload; numeric fields go through JS `||` defaulting. -/
structure JoinData where
  playerId : String
  name : String
  role : String
  x : Option ℚ
  y : Option ℚ
  gameWidth : Option ℚ
  gameHeight : Option ℚ
deriving Repr

/-- The player object constructed by the `player:join` handler:
`x = playerData.x || 400`, `y = playerData.y || 300`,
`gameWidth = playerData.gameWidth || 1200`, `gameHeight = playerData.gameHeight || 800`. -/
def mkPlayer (sid : String) (pd : JoinData) : Player :=
  { id := pd.playerId
    socketId := sid
    name := pd.name
    role := pd.role
    x := jsOrNum pd.x 400
    y := jsOrNum pd.y 300
    gameWidth := jsOrNum pd.gameWidth 1200
    gameHeight := jsOrNum pd.gameHeight 800 }

/-- A JSON value, as produced by `JSON.parse` on an LLM response body. -/
inductive JValue where
  | jnull
  | jbool (b : Bool)
  | jnum (q : ℚ)
  | jstr (s : String)
  | jarr (elems : List JValue)
  | jobj (fields : List (String × JValue))

/-- JS falsiness of a parsed JSON value (`null`, `false`, `0`, `""`). -/
def JValue.isFalsy : JValue → Bool
  | .jnull => true
  | .jbool b => !b
  | .jnum q => q = 0
  | .jstr s => s = ""
  | .jarr _ => false
  | .jobj _ => false

/-- The ideal response attached to a scenario. The source builds it with
`Math.max(-1, Math.min(1, ideal.axis1_value))` and `ideal.ideal_action`
without validating the parsed JSON, so each coordinate is a JS number that
may be `NaN` (modelled as `none`) and the action may be `undefined` or a
non-string (modelled as `none`, since the only operation ever applied to it,
`.toLowerCase()`, throws on both). -/
structure Ideal where
  axis1 : Option ℚ
  axis2 : Option ℚ
  idealAction : Option String
deriving DecidableEq, Repr

/-- An entry of a scenario's `responses` map, built by `scenario:respond`. -/
structure Response where
  playerId : String
  name : String
  role : String
  response : String
  timestamp : ℕ
deriving DecidableEq, Repr

/-- The `currentScenario` object built by `startNewScenario`. -/
structure Scenario where
  id : ℕ
  text : String
  axes : JValue
  idealResponse : Ideal
  startTime : ℕ
  duration : ℕ
  responses : List (String × Response)
  teamVote : ℚ × ℚ
  usedFallback : Bool

/-- Result of running the `player:join` handler: the updated registry, whether
the `'error'` event was emitted, and the delay of a `startNewScenario` timer
if one was scheduled. -/
structure JoinResult where
  players : Registry
  errored : Bool
  scheduledDelay : Option ℕ
deriving Repr

/-- The `player:join` handler: reject when `players.size >= MAX_PLAYERS`,
otherwise `players.set(playerId, player)`; schedule `startNewScenario` after
3000 ms when `players.size === 1 && !currentScenario` afterwards. -/
def joinHandler (players : Registry) (currentScenario : Option Scenario)
    (sid : String) (pd : JoinData) : JoinResult :=
  if MAX_PLAYERS ≤ players.length then
    { players := players, errored := true, scheduledDelay := none }
  else
    let players' := jsMapSet players pd.playerId (mkPlayer sid pd)
    { players := players'
      errored := false
      scheduledDelay :=
        if players'.length = 1 ∧ currentScenario.isNone then some 3000 else none }

/-- The `player:update` (move) handler: find the player by socket id and
update its position; unknown sockets are a silent no-op. -/
def moveHandler (players : Registry) (sid : String) (x y : ℚ) : Registry :=
  match players.find? (fun e => e.2.socketId == sid) with
  | none => players
  | some e =>
    players.map (fun q => if q.1 == e.1 then (q.1, { q.2 with x := x, y := y }) else q)

/-- The registry mutation of the `disconnect` handler: find the player by
socket id and `players.delete(player.id)`; unknown sockets are a no-op. -/
def leaveRegistry (players : Registry) (sid : String) : Registry :=
  match players.find? (fun e => e.2.socketId == sid) with
  | none => players
  | some e => jsMapDelete players e.2.id

/-- A registry-mutating inbound event (join / move / leave). -/
inductive Op where
  | join (sid : String) (pd : JoinData)
  | move (sid : String) (x y : ℚ)
  | leave (sid : String)

/-- Apply one inbound event to the registry. -/
def applyOp (players : Registry) (op : Op) : Registry :=
  match op with
  | .join sid pd => (joinHandler players none sid pd).players
  | .move sid x y => moveHandler players sid x y
  | .leave sid => leaveRegistry players sid

/-- Apply a sequence of inbound events to the registry. -/
def applyOps (players : Registry) (ops : List Op) : Registry :=
  ops.foldl applyOp players

/-- The static fallback scenario pool of `startNewScenario`. -/
def fallbackScenarios : List String :=
  ["You\x27re at your reunion when your ex approaches with their new partner. They loudly announce that you \x27inspired them to find real love\x27 and everyone is watching your reaction.",
   "During a work video call, you realize you\x27ve been muted for 5 minutes while arguing. Your colleagues look embarrassed and your boss asks you to repeat everything.",
   "You\x27re at a dinner party when the host serves a dish you\x27re allergic to. They keep emphasizing how special the family recipe is while watching you expectantly.",
   "Your Uber driver starts crying about their divorce and asks for your advice. They want to know if they should fight for custody.",
   "You accidentally send a screenshot of someone\x27s complaint text to that same person. They respond immediately asking \x27What is this?\x27",
   "Your boss frames working weekends as \x27a great growth opportunity\x27 while making it clear it\x27s not optional. Your coworker who refuses overtime is standing right there.",
   "You\x27re at dinner when your friend\x27s card gets declined for the third time. The server is impatient and your friend looks mortified.",
   "You walk into the wrong restroom by mistake. Someone inside saw you enter and is staring at you in the mirror."]

/-- `getDefaultAxes`, as the JSON object shape it has in the server. -/
def getDefaultAxes : JValue :=
  .jobj [("axis1", .jobj [("negative", .jstr "Avoidance"), ("positive", .jstr "Approach")]),
         ("axis2", .jobj [("negative", .jstr "Vindictive"), ("positive", .jstr "Empathetic")])]

/-- `getRandomIdeal`: `(Math.random() - 0.5) * 2` on each axis, with the two
`Math.random()` draws passed in as `r1`, `r2`. -/
def getRandomIdeal (r1 r2 : ℚ) : Ideal :=
  { axis1 := some ((r1 - 1/2) * 2)
    axis2 := some ((r2 - 1/2) * 2)
    idealAction := some "Randomly generated fallback" }

/-- JS `s.includes(pat)` for a fixed nonempty pattern. -/
def jsIncludes (s pat : String) : Bool := decide (1 < (s.splitOn pat).length)

/-- Pick from the fallback pool: `fallbackScenarios[Math.floor(Math.random() * 8)]`. -/
def pickFallback (i : Fin 8) : String := fallbackScenarios.getD i.val ""

/-- Outcome of one guarded fetch whose payload is used as plain text
(`data.response.trim()`): the timeout race, a non-2xx status, a body that is
not JSON, a `response` field that is not a string, or a successful string. -/
inductive TextOutcome where
  | timeout
  | httpError (status : ℕ)
  | bodyNotJson
  | respFieldNotString
  | okText (s : String)

/-- `generatePartyBrainScenario` under `Promise.race`: every failure path
throws (and is caught by `startNewScenario`); success returns the trimmed
`response` field. -/
def generateScenarioText : TextOutcome → Except Unit String
  | .okText s => .ok s.trim
  | _ => .error ()

/-- Outcome of the axes fetch: as `TextOutcome`, plus the inner
`JSON.parse(data.response.trim())` either failing or yielding a JSON value. -/
inductive AxesOutcome where
  | timeout
  | httpError (status : ℕ)
  | bodyNotJson
  | respFieldNotString
  | innerNotJson
  | innerJson (v : JValue)

/-- `generateDynamicAxes` under `Promise.race`: every failure path throws;
a successfully parsed inner JSON value is returned as-is, with no validation
of its shape. -/
def generateDynamicAxes : AxesOutcome → Except Unit JValue
  | .innerJson v => .ok v
  | _ => .error ()

/-- Outcome of the ideal-point fetch. `innerJson a1 a2 act` is any successful
inner `JSON.parse`, with no schema requirement: `a1`/`a2` are the numeric
values of the `axis1_value`/`axis2_value` fields after JS numeric conversion
(`none` when that conversion yields `NaN`, in particular when the field is
missing, so `Math.min(1, undefined)` is `NaN`), and `act` is the
`ideal_action` field when it is a string (`none` when it is missing or not a
string). -/
inductive IdealOutcome where
  | timeout
  | httpError (status : ℕ)
  | bodyNotJson
  | respFieldNotString
  | innerNotJson
  | innerJson (a1 a2 : Option ℚ) (act : Option String)

/-- `generateIdealResponse` under `Promise.race`: the timeout, non-2xx,
non-JSON-body and non-parsing paths throw; ANY successfully parsed inner JSON
is returned without schema validation — each coordinate goes through
`Math.max(-1, Math.min(1, ·))`, which propagates `NaN` for a missing or
non-numeric field, and the action field is passed through as-is (possibly
`undefined`). No throw and no fallback happens on this path. -/
def generateIdealResponse : IdealOutcome → Except Unit Ideal
  | .innerJson a1 a2 act =>
    .ok { axis1 := jsClampNum a1, axis2 := jsClampNum a2, idealAction := act }
  | _ => .error ()

/-- Outcome of one feedback fetch
(`generateWhatYouShouldHaveDone` / `generateWhatYouActuallyDid`). -/
inductive FeedbackOutcome where
  | timeout
  | httpError (status : ℕ)
  | bodyNotJson
  | respFieldNotString
  | okText (s : String)

/-- The feedback generators under `Promise.race`: failure throws, success
returns the trimmed `response` field. -/
def generateFeedback : FeedbackOutcome → Except Unit String
  | .okText s => .ok s.trim
  | _ => .error ()

/-- Whether a JSON value has the axes shape the prompt requests:
`{axis1: {negative, positive}, axis2: {negative, positive}}` with string
leaves. The server never checks this. -/
def axisPairOk : JValue → Bool
  | .jobj fields =>
    (match jsMapGet fields "negative" with
     | some (.jstr _) => true
     | _ => false) &&
    (match jsMapGet fields "positive" with
     | some (.jstr _) => true
     | _ => false)
  | _ => false

/-- Schema check for the whole axes object (never performed by the server). -/
def axesSchemaOk : JValue → Bool
  | .jobj fields =>
    (match jsMapGet fields "axis1" with
     | some v => axisPairOk v
     | none => false) &&
    (match jsMapGet fields "axis2" with
     | some v => axisPairOk v
     | none => false)
  | _ => false

/-- The nondeterministic inputs of one `startNewScenario` run: the three fetch
outcomes and the random draws used by the fallbacks. -/
structure GenEnv where
  textOut : TextOutcome
  axesOut : AxesOutcome
  idealOut : IdealOutcome
  fallbackPick : Fin 8
  randA1 : ℚ
  randA2 : ℚ

/-- The try/catch content resolution of `startNewScenario`: run the three
generation calls in sequence; on the first failure enter the catch block,
which sets `usedFallback` and substitutes, for each variable still unset (or,
for the scenario text, also when it is empty or contains `'fallback'`), that
operation's fallback. A falsy parsed axes value is also replaced (JS `!axes`). -/
def resolveContent (env : GenEnv) : String × JValue × Ideal × Bool :=
  match generateScenarioText env.textOut with
  | .error _ =>
    (pickFallback env.fallbackPick, getDefaultAxes,
     getRandomIdeal env.randA1 env.randA2, true)
  | .ok scenario =>
    match generateDynamicAxes env.axesOut with
    | .error _ =>
      (if scenario = "" ∨ jsIncludes scenario "fallback" then pickFallback env.fallbackPick
       else scenario,
       getDefaultAxes, getRandomIdeal env.randA1 env.randA2, true)
    | .ok axes =>
      match generateIdealResponse env.idealOut with
      | .error _ =>
        (if scenario = "" ∨ jsIncludes scenario "fallback" then pickFallback env.fallbackPick
         else scenario,
         if axes.isFalsy then getDefaultAxes else axes,
         getRandomIdeal env.randA1 env.randA2, true)
      | .ok ideal => (scenario, axes, ideal, false)

/-- One per-round outcome record pushed onto `gameState.teamResponses`. -/
structure RoundOutcome where
  round : ℕ
  scenario : String
  axes : JValue
  teamAxis1 : ℚ
  teamAxis2 : ℚ
  idealAxis1 : Option ℚ
  idealAxis2 : Option ℚ
  accuracy : ℚ
  responseCount : ℕ
  idealAction : Option String

/-- The server's `gameState`: three gauges and the round-outcome history. -/
structure GameData where
  mentalStability : ℚ
  socialReputation : ℚ
  chaos : ℚ
  teamResponses : List RoundOutcome

/-- The initial `gameState` (also what completion resets to). -/
def initialGameData : GameData :=
  { mentalStability := 50, socialReputation := 50, chaos := 50, teamResponses := [] }

/-- The room-level mutable state driven by the handlers. -/
structure RoomState where
  players : Registry
  currentScenario : Option Scenario
  currentRound : ℕ
  game : GameData

/-- Outbound broadcast events relevant to the claims. -/
inductive Event where
  | scenarioLoading
  | scenarioNew (payload : Scenario)
  | scoreLoading
  | scoreDisplay (accuracy : ℚ) (shouldHaveDone actuallyDid : String)
  | gameComplete (finalScore : ℚ) (responses : List RoundOutcome)

/-- `startNewScenario`: return immediately when the room is empty; otherwise
emit `scenario:loading`, resolve content, build the scenario with
`duration = ROUND_DURATIONS[currentRound]`, emit `scenario:new` with the whole
scenario object, and arm the countdown timer with that same duration. -/
def startNewScenarioStep (players : Registry) (round : ℕ) (now : ℕ) (env : GenEnv) :
    List Event × Option (Scenario × ℕ) :=
  if players.length = 0 then ([], none)
  else
    let r := resolveContent env
    let scn : Scenario :=
      { id := now, text := r.1, axes := r.2.1, idealResponse := r.2.2.1,
        startTime := now, duration := ROUND_DURATIONS.getD round 0,
        responses := [], teamVote := (0, 0), usedFallback := r.2.2.2 }
    ([.scenarioLoading, .scenarioNew scn], some (scn, ROUND_DURATIONS.getD round 0))

/-- The feedback phase of `endCurrentScenario`: both feedback fetches must
succeed, otherwise the catch assigns both templated fallback sentences built
from the ideal action and the team's axis signs. The first template calls
`currentScenario.idealResponse.idealAction.toLowerCase()`: when the ideal
action is not a string (the unvalidated wrong-schema ideal path) this throws
a TypeError inside the catch, modelled as the `.error` result. -/
def resolveFeedback (scn : Scenario) (t1 t2 : ℚ) (o1 o2 : FeedbackOutcome) :
    Except Unit (String × String) :=
  match generateFeedback o1, generateFeedback o2 with
  | .ok a, .ok b => .ok (a, b)
  | _, _ =>
    match scn.idealResponse.idealAction with
    | none => .error ()
    | some act =>
      .ok ("The ideal approach would have been " ++ act.toLower ++ ".",
        "The team chose a " ++ (if 0 < t1 then "more direct" else "more avoidant") ++
          " and " ++ (if 0 < t2 then "more empathetic" else "more harsh") ++ " approach.")

/-- The gauge adjustments of `endCurrentScenario` (thresholds ±0.3). -/
def gaugeStep (g : GameData) (t1 t2 : ℚ) : GameData :=
  let g1 :=
    if 3/10 < t1 then { g with socialReputation := g.socialReputation + 5 }
    else if t1 < -(3/10) then { g with socialReputation := g.socialReputation - 3 }
    else g
  if 3/10 < t2 then { g1 with mentalStability := g1.mentalStability + 5, chaos := g1.chaos - 3 }
  else if t2 < -(3/10) then { g1 with mentalStability := g1.mentalStability - 3, chaos := g1.chaos + 5 }
  else g1

/-- `endCurrentScenario`: average the players' clamped normalized positions,
score against the ideal point (`d` is the Euclidean distance from the team
point to the ideal point, characterised by `0 ≤ d ∧ d ^ 2 = distSq`), apply
the gauge nudges, push the round outcome, emit `score:loading`, resolve
feedback, emit `score:display`; if `currentRound + 1` reaches `MAX_ROUNDS`,
also emit `game:complete` with `finalScore = Σ accuracy / MAX_ROUNDS` and
reset round index and gauges. When the feedback fallback template throws (a
non-string ideal action with a failed feedback fetch), the TypeError aborts
the async function after `score:loading`: the outcome stays pushed and the
gauges stay nudged, but the scenario is not cleared, the round index is not
advanced, and no further event fires. -/
def endCurrentScenario (st : RoomState) (d : ℚ) (o1 o2 : FeedbackOutcome) :
    RoomState × List Event :=
  match st.currentScenario with
  | none => (st, [])
  | some scn =>
    let tv := updateTeamVote (st.players.map Prod.snd)
    let t1 := tv.1.1
    let t2 := tv.1.2
    let accuracy := accuracyOf d
    let g1 := gaugeStep st.game t1 t2
    let outcome : RoundOutcome :=
      { round := st.currentRound + 1, scenario := scn.text, axes := scn.axes,
        teamAxis1 := t1, teamAxis2 := t2,
        idealAxis1 := scn.idealResponse.axis1, idealAxis2 := scn.idealResponse.axis2,
        accuracy := accuracy, responseCount := scn.responses.length,
        idealAction := scn.idealResponse.idealAction }
    let g2 : GameData := { g1 with teamResponses := g1.teamResponses ++ [outcome] }
    match resolveFeedback scn t1 t2 o1 o2 with
    | .error _ =>
      ({ st with game := g2 }, [Event.scoreLoading])
    | .ok fb =>
      let displayEvents := [Event.scoreLoading, Event.scoreDisplay accuracy fb.1 fb.2]
      if MAX_ROUNDS ≤ st.currentRound + 1 then
        let finalScore := (g2.teamResponses.map RoundOutcome.accuracy).sum / (MAX_ROUNDS : ℚ)
        ({ players := st.players, currentScenario := none, currentRound := 0,
           game := initialGameData },
         displayEvents ++ [Event.gameComplete finalScore g2.teamResponses])
      else
        ({ st with currentScenario := none, currentRound := st.currentRound + 1, game := g2 },
         displayEvents)

/-- The `disconnect` handler at room level: delete the player found by socket
id from the registry; the current scenario (response map included) is not
touched. -/
def disconnectHandler (st : RoomState) (sid : String) : RoomState :=
  { st with players := leaveRegistry st.players sid }

/-- The `scenario:respond` handler: when a scenario is live and the socket is
a known player, store the response keyed by the socket id. -/
def respondHandler (st : RoomState) (sid : String) (text : String) (now : ℕ) :
    RoomState :=
  match st.currentScenario with
  | none => st
  | some scn =>
    match st.players.find? (fun e => e.2.socketId == sid) with
    | none => st
    | some e =>
      let resp : Response :=
        { playerId := e.2.id, name := e.2.name, role := e.2.role,
          response := text, timestamp := now }
      let scn' : Scenario := { scn with responses := jsMapSet scn.responses sid resp }
      { st with currentScenario := some scn' }

/-- A concrete player used to instantiate the theorems. -/
def demoPlayer (pid sid : String) : Player :=
  ⟨pid, sid, "n", "r", 400, 300, 1200, 800⟩

/-- A concrete join payload with all optional fields absent. -/
def demoJoin (pid : String) : JoinData := ⟨pid, "n", "r", none, none, none, none⟩

/-- A one-player registry. -/
def demoRegistry1 : Registry := [("p1", demoPlayer "p1" "s1")]

/-- A full eight-player registry. -/
def witnessRegistry8 : Registry :=
  [("p1", demoPlayer "p1" "s1"), ("p2", demoPlayer "p2" "s2"),
   ("p3", demoPlayer "p3" "s3"), ("p4", demoPlayer "p4" "s4"),
   ("p5", demoPlayer "p5" "s5"), ("p6", demoPlayer "p6" "s6"),
   ("p7", demoPlayer "p7" "s7"), ("p8", demoPlayer "p8" "s8")]

/-- A concrete ideal point. -/
def demoIdeal : Ideal := ⟨some 0, some 0, some "Stay calm"⟩

/-- A concrete live scenario. -/
def demoScenario : Scenario :=
  { id := 0, text := "demo", axes := getDefaultAxes, idealResponse := demoIdeal,
    startTime := 0, duration := 30000, responses := [], teamVote := (0, 0),
    usedFallback := false }

/-- A room with no players and a live scenario. -/
def demoState : RoomState :=
  { players := [], currentScenario := some demoScenario, currentRound := 0,
    game := initialGameData }

/-- A room with one player and a live scenario. -/
def demoState1 : RoomState :=
  { players := demoRegistry1, currentScenario := some demoScenario, currentRound := 0,
    game := initialGameData }

/-- A concrete stored round outcome with accuracy 80. -/
def demoOutcome : RoundOutcome :=
  { round := 1, scenario := "demo", axes := getDefaultAxes, teamAxis1 := 0,
    teamAxis2 := 0, idealAxis1 := some 0, idealAxis2 := some 0, accuracy := 80,
    responseCount := 0, idealAction := some "Stay calm" }

/-- A room about to finish its last round: round index 3, three outcomes stored. -/
def demoStateRound3 : RoomState :=
  { players := [], currentScenario := some demoScenario, currentRound := 3,
    game := { mentalStability := 50, socialReputation := 50, chaos := 50,
              teamResponses := [demoOutcome, demoOutcome, demoOutcome] } }

/-- A generation environment where every fetch times out. -/
def demoEnv : GenEnv := ⟨.timeout, .timeout, .timeout, 0, 0, 0⟩

/-- A generation run whose axes fetch returns 2xx valid JSON of the wrong
shape (`{}`), the other two fetches succeeding. -/
def envC : GenEnv :=
  ⟨.okText "demo", .innerJson (.jobj []), .innerJson (some 0) (some 0) (some "act"),
   0, 0, 0⟩

/-- A generation run whose ideal fetch returns 2xx valid JSON of the wrong
shape (`{}`): both coordinate fields convert to `NaN` and the action is
`undefined`, the other two fetches succeeding. -/
def envD : GenEnv :=
  ⟨.okText "demo", .innerJson getDefaultAxes, .innerJson none none none, 0, 0, 0⟩

/-- A generation run identical to `envB` except for the ideal point. -/
def envA : GenEnv :=
  ⟨.okText "demo", .innerJson getDefaultAxes, .innerJson (some 0) (some 0) (some "act"),
   0, 0, 0⟩

/-- A generation run identical to `envA` except for the ideal point. -/
def envB : GenEnv :=
  ⟨.okText "demo", .innerJson getDefaultAxes,
   .innerJson (some (1/2)) (some 0) (some "act"), 0, 0, 0⟩

theorem clamp_le_one (v : ℚ) : clamp v ≤ 1 := by
  unfold clamp
  exact max_le (by norm_num) (min_le_left _ _)

theorem neg_one_le_clamp (v : ℚ) : -1 ≤ clamp v := le_max_left _ _

theorem list_sum_le_length (l : List ℚ) (h : ∀ x ∈ l, x ≤ 1) :
    l.sum ≤ (l.length : ℚ) := by
  induction l with
  | nil => simp
  | cons a t ih =>
    simp only [List.sum_cons, List.length_cons]
    push_cast
    have ha : a ≤ 1 := h a (List.mem_cons_self a t)
    have ht : t.sum ≤ (t.length : ℚ) := ih (fun x hx => h x (List.mem_cons_of_mem a hx))
    linarith

theorem neg_length_le_list_sum (l : List ℚ) (h : ∀ x ∈ l, -1 ≤ x) :
    -(l.length : ℚ) ≤ l.sum := by
  induction l with
  | nil => simp
  | cons a t ih =>
    simp only [List.sum_cons, List.length_cons]
    push_cast
    have ha : -1 ≤ a := h a (List.mem_cons_self a t)
    have ht : -(t.length : ℚ) ≤ t.sum := ih (fun x hx => h x (List.mem_cons_of_mem a hx))
    linarith

theorem mean_bounds (l : List ℚ) (hmem : ∀ x ∈ l, -1 ≤ x ∧ x ≤ 1) (hne : l ≠ []) :
    -1 ≤ l.sum / (l.length : ℚ) ∧ l.sum / (l.length : ℚ) ≤ 1 := by
  have hlen : 0 < (l.length : ℚ) := by
    have : 0 < l.length := List.length_pos.mpr hne
    exact_mod_cast this
  constructor
  · rw [le_div_iff₀ hlen]
    have := neg_length_le_list_sum l (fun x hx => (hmem x hx).1)
    linarith
  · rw [div_le_one hlen]
    exact list_sum_le_length l (fun x hx => (hmem x hx).2)

theorem jsMapSet_length_le {β : Type} (m : List (String × β)) (k : String) (v : β) :
    (jsMapSet m k v).length ≤ m.length + 1 := by
  unfold jsMapSet
  by_cases h : m.any (fun e => e.1 = k)
  · rw [if_pos h, List.length_map]
    exact Nat.le_succ _
  · rw [if_neg h, List.length_append]
    simp

theorem jsMapSet_length_of_mem {β : Type} (m : List (String × β)) (k : String) (v : β)
    (h : m.any (fun e => e.1 = k)) : (jsMapSet m k v).length = m.length := by
  unfold jsMapSet
  rw [if_pos h, List.length_map]

theorem moveHandler_length (players : Registry) (sid : String) (x y : ℚ) :
    (moveHandler players sid x y).length = players.length := by
  unfold moveHandler
  cases players.find? (fun e => e.2.socketId == sid) with
  | none => rfl
  | some e => exact List.length_map _ _

theorem leaveRegistry_length_le (players : Registry) (sid : String) :
    (leaveRegistry players sid).length ≤ players.length := by
  unfold leaveRegistry
  cases players.find? (fun e => e.2.socketId == sid) with
  | none => exact le_rfl
  | some e => exact List.length_filter_le _ _

theorem applyOp_length_le (players : Registry) (op : Op)
    (h : players.length ≤ MAX_PLAYERS) : (applyOp players op).length ≤ MAX_PLAYERS := by
  cases op with
  | join sid pd =>
    simp only [applyOp, joinHandler]
    by_cases hcap : MAX_PLAYERS ≤ players.length
    · rw [if_pos hcap]
      exact h
    · rw [if_neg hcap]
      have hlt : players.length < MAX_PLAYERS := Nat.lt_of_not_le hcap
      calc (jsMapSet players pd.playerId (mkPlayer sid pd)).length
          ≤ players.length + 1 := jsMapSet_length_le _ _ _
        _ ≤ MAX_PLAYERS := hlt
  | move sid x y =>
    simp only [applyOp]
    rw [moveHandler_length]
    exact h
  | leave sid =>
    simp only [applyOp]
    exact le_trans (leaveRegistry_length_le _ _) h

theorem applyOps_length_le (players : Registry) (ops : List Op)
    (h : players.length ≤ MAX_PLAYERS) : (applyOps players ops).length ≤ MAX_PLAYERS := by
  induction ops generalizing players with
  | nil => exact h
  | cons op t ih => exact ih _ (applyOp_length_le _ _ h)

theorem any_key_iff {β : Type} (m : List (String × β)) (k : String) :
    m.any (fun e => e.1 = k) = true ↔ k ∈ m.map Prod.fst := by
  simp [List.any_eq_true, List.mem_map]

theorem jsMapSet_cons_of_ne {β : Type} (a : String × β) (t : List (String × β))
    (k : String) (v : β) (ha : a.1 ≠ k) :
    jsMapSet (a :: t) k v = a :: jsMapSet t k v := by
  unfold jsMapSet
  by_cases ht : t.any (fun e => e.1 = k)
  · rw [if_pos (by simp [List.any_cons, ht]), if_pos ht]
    simp [ha]
  · rw [if_neg (by simp [List.any_cons, ha, ht]), if_neg ht]
    simp

theorem jsMapGet_jsMapSet_self {β : Type} (m : List (String × β)) (k : String) (v : β) :
    jsMapGet (jsMapSet m k v) k = some v := by
  induction m with
  | nil =>
    unfold jsMapSet
    rw [if_neg (by simp)]
    unfold jsMapGet
    rw [List.nil_append, List.find?_cons_of_pos _ (by simp)]
    rfl
  | cons a t ih =>
    by_cases ha : a.1 = k
    · unfold jsMapSet
      rw [if_pos (by simp [List.any_cons, ha])]
      simp [jsMapGet, ha]
    · rw [jsMapSet_cons_of_ne a t k v ha]
      unfold jsMapGet
      rw [List.find?_cons_of_neg _ (by simp [ha])]
      exact ih

theorem jsMapSet_keys_of_mem {β : Type} (m : List (String × β)) (k : String) (v : β)
    (h : m.any (fun e => e.1 = k) = true) :
    (jsMapSet m k v).map Prod.fst = m.map Prod.fst := by
  unfold jsMapSet
  rw [if_pos h, List.map_map]
  apply List.map_congr_left
  intro e _
  by_cases hek : e.1 = k
  · simp [hek]
  · simp [hek]

theorem jsMapSet_keys_of_not_mem {β : Type} (m : List (String × β)) (k : String) (v : β)
    (h : ¬ m.any (fun e => e.1 = k) = true) :
    (jsMapSet m k v).map Prod.fst = m.map Prod.fst ++ [k] := by
  unfold jsMapSet
  rw [if_neg h]
  simp

theorem jsMapSet_nodup_keys {β : Type} (m : List (String × β)) (k : String) (v : β)
    (h : (m.map Prod.fst).Nodup) : ((jsMapSet m k v).map Prod.fst).Nodup := by
  by_cases hm : m.any (fun e => e.1 = k) = true
  · rw [jsMapSet_keys_of_mem _ _ _ hm]
    exact h
  · rw [jsMapSet_keys_of_not_mem _ _ _ hm]
    have hk : k ∉ m.map Prod.fst := fun hmem => hm ((any_key_iff m k).mpr hmem)
    rw [List.nodup_append]
    exact ⟨h, List.nodup_singleton k, by simpa [List.disjoint_singleton] using hk⟩

theorem updateTeamVote_of_ne_nil (ps : List Player) (hne : ps ≠ []) :
    updateTeamVote ps =
      (((ps.map fun p => (playerAxes p).1).sum / (ps.length : ℚ),
        (ps.map fun p => (playerAxes p).2).sum / (ps.length : ℚ)), ps.length) := by
  unfold updateTeamVote
  rw [if_pos (List.length_pos.mpr hne)]

theorem playerAxes_eq_spec (p : Player) (hw : p.gameWidth ≠ 0) (hh : p.gameHeight ≠ 0) :
    playerAxes p = (specAxis1 p, specAxis2 p) := by
  unfold playerAxes specAxis1 specAxis2
  rw [if_neg hw, if_neg hh]
  norm_num

end PartyBrain

open PartyBrain

/-- C1: for every set of registered players (whose stored viewport dimensions
are nonzero, as the join handler guarantees), `updateTeamVote` normalizes each
player with that player's own viewport dimensions and margin 60 via
`axis1 = clamp((x − width/2) / ((width − 2·60)/2), −1, 1)` (analogously for
`axis2`), returns the arithmetic mean of the clamped per-player values and a
sample count equal to the number of registered players, both averaged axis
values lie in [−1, 1], and with zero players it returns ((0, 0), 0). -/
theorem C1_updateTeamVote_spec (ps : List Player)
    (hdims : ∀ p ∈ ps, p.gameWidth ≠ 0 ∧ p.gameHeight ≠ 0) :
    (updateTeamVote ps).2 = ps.length ∧
    (-1 ≤ (updateTeamVote ps).1.1 ∧ (updateTeamVote ps).1.1 ≤ 1) ∧
    (-1 ≤ (updateTeamVote ps).1.2 ∧ (updateTeamVote ps).1.2 ≤ 1) ∧
    updateTeamVote [] = ((0, 0), 0) ∧
    (ps ≠ [] →
      (updateTeamVote ps).1.1 = (ps.map specAxis1).sum / (ps.length : ℚ) ∧
      (updateTeamVote ps).1.2 = (ps.map specAxis2).sum / (ps.length : ℚ)) := by
  have hmap1 : ps.map (fun p => (playerAxes p).1) = ps.map specAxis1 := by
    apply List.map_congr_left
    intro p hp
    rw [playerAxes_eq_spec p (hdims p hp).1 (hdims p hp).2]
  have hmap2 : ps.map (fun p => (playerAxes p).2) = ps.map specAxis2 := by
    apply List.map_congr_left
    intro p hp
    rw [playerAxes_eq_spec p (hdims p hp).1 (hdims p hp).2]
  by_cases hne : ps = []
  · subst hne
    refine ⟨rfl, ?_, ?_, rfl, fun h => absurd rfl h⟩ <;>
      constructor <;> norm_num [updateTeamVote]
  · have heq := updateTeamVote_of_ne_nil ps hne
    have hb1 : -1 ≤ (ps.map fun p => (playerAxes p).1).sum / (ps.length : ℚ) ∧
        (ps.map fun p => (playerAxes p).1).sum / (ps.length : ℚ) ≤ 1 := by
      have := mean_bounds (ps.map fun p => (playerAxes p).1)
        (by
          intro x hx
          obtain ⟨p, _, rfl⟩ := List.mem_map.mp hx
          exact ⟨neg_one_le_clamp _, clamp_le_one _⟩)
        (by simpa using hne)
      simpa using this
    have hb2 : -1 ≤ (ps.map fun p => (playerAxes p).2).sum / (ps.length : ℚ) ∧
        (ps.map fun p => (playerAxes p).2).sum / (ps.length : ℚ) ≤ 1 := by
      have := mean_bounds (ps.map fun p => (playerAxes p).2)
        (by
          intro x hx
          obtain ⟨p, _, rfl⟩ := List.mem_map.mp hx
          exact ⟨neg_one_le_clamp _, clamp_le_one _⟩)
        (by simpa using hne)
      simpa using this
    refine ⟨by rw [heq], ?_, ?_, rfl, fun _ => ?_⟩
    · rw [heq]; exact hb1
    · rw [heq]; exact hb2
    · rw [heq, ← hmap1, ← hmap2]
      exact ⟨rfl, rfl⟩

/-- Witness for C1 at a concrete one-player registry. -/
theorem C1_updateTeamVote_spec_witness :
    (∀ p ∈ [(⟨"p1", "s1", "Ann", "Logic", 600, 400, 1200, 800⟩ : Player)],
        p.gameWidth ≠ 0 ∧ p.gameHeight ≠ 0) ∧
    ((updateTeamVote [(⟨"p1", "s1", "Ann", "Logic", 600, 400, 1200, 800⟩ : Player)]).2 =
        [(⟨"p1", "s1", "Ann", "Logic", 600, 400, 1200, 800⟩ : Player)].length ∧
      (-1 ≤ (updateTeamVote [(⟨"p1", "s1", "Ann", "Logic", 600, 400, 1200, 800⟩ : Player)]).1.1 ∧
        (updateTeamVote [(⟨"p1", "s1", "Ann", "Logic", 600, 400, 1200, 800⟩ : Player)]).1.1 ≤ 1) ∧
      (-1 ≤ (updateTeamVote [(⟨"p1", "s1", "Ann", "Logic", 600, 400, 1200, 800⟩ : Player)]).1.2 ∧
        (updateTeamVote [(⟨"p1", "s1", "Ann", "Logic", 600, 400, 1200, 800⟩ : Player)]).1.2 ≤ 1) ∧
      updateTeamVote [] = ((0, 0), 0) ∧
      ([(⟨"p1", "s1", "Ann", "Logic", 600, 400, 1200, 800⟩ : Player)] ≠ [] →
        (updateTeamVote [(⟨"p1", "s1", "Ann", "Logic", 600, 400, 1200, 800⟩ : Player)]).1.1 =
          ([(⟨"p1", "s1", "Ann", "Logic", 600, 400, 1200, 800⟩ : Player)].map specAxis1).sum /
            (([(⟨"p1", "s1", "Ann", "Logic", 600, 400, 1200, 800⟩ : Player)].length : ℚ)) ∧
        (updateTeamVote [(⟨"p1", "s1", "Ann", "Logic", 600, 400, 1200, 800⟩ : Player)]).1.2 =
          ([(⟨"p1", "s1", "Ann", "Logic", 600, 400, 1200, 800⟩ : Player)].map specAxis2).sum /
            (([(⟨"p1", "s1", "Ann", "Logic", 600, 400, 1200, 800⟩ : Player)].length : ℚ)))) :=
  have hdims : ∀ p ∈ [(⟨"p1", "s1", "Ann", "Logic", 600, 400, 1200, 800⟩ : Player)],
      p.gameWidth ≠ 0 ∧ p.gameHeight ≠ 0 := by
    intro p hp
    simp only [List.mem_singleton] at hp
    subst hp
    refine ⟨by norm_num, by norm_num⟩
  ⟨hdims, C1_updateTeamVote_spec _ hdims⟩


theorem resolveFeedback_isOk (scn : Scenario) (t1 t2 : ℚ) (o1 o2 : FeedbackOutcome)
    (act : String) (hact : scn.idealResponse.idealAction = some act) :
    ∃ fb, resolveFeedback scn t1 t2 o1 o2 = .ok fb := by
  unfold resolveFeedback
  cases generateFeedback o1 with
  | error e =>
    cases generateFeedback o2 with
    | error e2 =>
      rw [hact]
      exact ⟨_, rfl⟩
    | ok b =>
      rw [hact]
      exact ⟨_, rfl⟩
  | ok a =>
    cases generateFeedback o2 with
    | error e2 =>
      rw [hact]
      exact ⟨_, rfl⟩
    | ok b => exact ⟨(a, b), rfl⟩

/-- C2: at round expiry the accuracy equals `max(0, 100 − 50·d)` where `d` is
the Euclidean distance (characterised by `0 ≤ d` and `d² = distSq`) between
the team's averaged point and the scenario's ideal point; provided the ideal
point's coordinates are (non-NaN) numbers in [−1, 1] — and the action summary
is a string, so that the scoring path completes instead of crashing in the
feedback fallback — the accuracy broadcast in the score event lies in
[0, 100]. -/
theorem C2_accuracy_bounds (st : RoomState) (scn : Scenario) (o1 o2 : FeedbackOutcome)
    (d a1 a2 : ℚ) (act : String)
    (hscn : st.currentScenario = some scn)
    (ha1 : scn.idealResponse.axis1 = some a1)
    (ha2 : scn.idealResponse.axis2 = some a2)
    (hact : scn.idealResponse.idealAction = some act)
    (hd0 : 0 ≤ d)
    (hd : d ^ 2 = distSq (updateTeamVote (st.players.map Prod.snd)).1 (a1, a2))
    (hi1 : -1 ≤ a1) (hi2 : a1 ≤ 1) (hi3 : -1 ≤ a2) (hi4 : a2 ≤ 1) :
    (∃ s1 s2, Event.scoreDisplay (accuracyOf d) s1 s2 ∈ (endCurrentScenario st d o1 o2).2) ∧
    0 ≤ accuracyOf d ∧ accuracyOf d ≤ 100 := by
  refine ⟨?_, le_max_left _ _, ?_⟩
  · obtain ⟨fb, hfb⟩ := resolveFeedback_isOk scn
      (updateTeamVote (st.players.map Prod.snd)).1.1
      (updateTeamVote (st.players.map Prod.snd)).1.2 o1 o2 act hact
    simp only [endCurrentScenario, hscn, hfb]
    split
    · exact ⟨fb.1, fb.2, by simp⟩
    · exact ⟨fb.1, fb.2, by simp⟩
  · have h50 : 0 ≤ d * 50 := by positivity
    have h100 : (100 : ℚ) - d * 50 ≤ 100 := by linarith
    exact max_le (by norm_num) h100

/-- Witness for C2 at a concrete room whose team point and ideal point both
sit at the origin, so the distance is 0. -/
theorem C2_accuracy_bounds_witness :
    (demoState.currentScenario = some demoScenario ∧
      demoScenario.idealResponse.axis1 = some 0 ∧
      demoScenario.idealResponse.axis2 = some 0 ∧
      demoScenario.idealResponse.idealAction = some "Stay calm" ∧
      (0 : ℚ) ≤ 0 ∧
      (0 : ℚ) ^ 2 = distSq (updateTeamVote (demoState.players.map Prod.snd)).1 (0, 0)) ∧
    ((∃ s1 s2, Event.scoreDisplay (accuracyOf 0) s1 s2 ∈
        (endCurrentScenario demoState 0 .timeout .timeout).2) ∧
      0 ≤ accuracyOf 0 ∧ accuracyOf 0 ≤ 100) :=
  ⟨⟨rfl, rfl, rfl, rfl, le_rfl,
      by norm_num [distSq, demoState, updateTeamVote]⟩,
    C2_accuracy_bounds demoState demoScenario .timeout .timeout 0 0 0 "Stay calm"
      rfl rfl rfl rfl le_rfl
      (by norm_num [distSq, demoState, updateTeamVote])
      (by norm_num) (by norm_num) (by norm_num) (by norm_num)⟩

/-- C3: a join on a room already holding 8 players is rejected with the
capacity error and leaves the registry unchanged, and under every sequence of
join/move/leave operations starting from the empty room the registry size
never exceeds the capacity 8. -/
theorem C3_capacity :
    (∀ (players : Registry) (scn : Option Scenario) (sid : String) (pd : JoinData),
      players.length = 8 →
      joinHandler players scn sid pd = ⟨players, true, none⟩) ∧
    (∀ ops : List Op, (applyOps [] ops).length ≤ 8) := by
  constructor
  · intro players scn sid pd h
    unfold joinHandler
    rw [if_pos (by simp [h, MAX_PLAYERS])]
  · intro ops
    exact applyOps_length_le [] ops (by simp [MAX_PLAYERS])

/-- Witness for C3: a 9th join on a concrete full 8-player room is rejected
with the registry unchanged, and a concrete operation sequence respects the
capacity bound. -/
theorem C3_capacity_witness :
    witnessRegistry8.length = 8 ∧
    joinHandler witnessRegistry8 none "s9" (demoJoin "p9") = ⟨witnessRegistry8, true, none⟩ ∧
    (applyOps [] [Op.join "s1" (demoJoin "p1"), Op.move "s1" 10 20, Op.leave "s1"]).length ≤ 8 :=
  ⟨rfl,
    C3_capacity.1 witnessRegistry8 none "s9" (demoJoin "p9") rfl,
    C3_capacity.2 [Op.join "s1" (demoJoin "p1"), Op.move "s1" 10 20, Op.leave "s1"]⟩

/-- C4 (amended): when a player leaves, the player found by the socket id is
deleted from the registry — so no entry for that player id remains as input to
the next team-vote computation — but the in-flight scenario (its response map
included) is left untouched, so the response map may retain an entry for the
departed connection. -/
theorem C4_disconnect (st : RoomState) (sid : String) (e : String × Player)
    (hfind : st.players.find? (fun q => q.2.socketId == sid) = some e)
    (hwf : ∀ q ∈ st.players, q.1 = q.2.id) :
    (disconnectHandler st sid).players = jsMapDelete st.players e.2.id ∧
    (∀ q ∈ (disconnectHandler st sid).players, q.2.id ≠ e.2.id) ∧
    (disconnectHandler st sid).currentScenario = st.currentScenario := by
  have hplayers : (disconnectHandler st sid).players = jsMapDelete st.players e.2.id := by
    simp only [disconnectHandler, leaveRegistry, hfind]
  refine ⟨hplayers, ?_, rfl⟩
  intro q hq
  rw [hplayers] at hq
  have hmem : q ∈ st.players := List.mem_of_mem_filter hq
  have hkey : ¬ (q.1 = e.2.id) := by
    have := List.of_mem_filter hq
    simpa using this
  rw [← hwf q hmem] at *
  exact hkey

/-- Counterexample to C4 as stated: in a concrete room, a player responds and
then disconnects; the player is gone from the registry, yet the live
scenario's response map still holds that connection's entry. -/
theorem C4_counterexample :
    (disconnectHandler (respondHandler demoState1 "s1" "ok" 5) "s1").players = [] ∧
    ((disconnectHandler (respondHandler demoState1 "s1" "ok" 5) "s1").currentScenario.map
        (fun scn => jsMapGet scn.responses "s1")) =
      some (some ⟨"p1", "n", "r", "ok", 5⟩) := by
  constructor
  · rfl
  · rfl

/-- Witness for C4 at the concrete post-response room. -/
theorem C4_disconnect_witness :
    ((respondHandler demoState1 "s1" "ok" 5).players.find?
        (fun q => q.2.socketId == "s1") = some ("p1", demoPlayer "p1" "s1")) ∧
    ((disconnectHandler (respondHandler demoState1 "s1" "ok" 5) "s1").players =
        jsMapDelete (respondHandler demoState1 "s1" "ok" 5).players "p1" ∧
      (∀ q ∈ (disconnectHandler (respondHandler demoState1 "s1" "ok" 5) "s1").players,
        q.2.id ≠ "p1") ∧
      (disconnectHandler (respondHandler demoState1 "s1" "ok" 5) "s1").currentScenario =
        (respondHandler demoState1 "s1" "ok" 5).currentScenario) :=
  ⟨rfl,
    C4_disconnect (respondHandler demoState1 "s1" "ok" 5) "s1" ("p1", demoPlayer "p1" "s1")
      rfl (by decide)⟩

/-- C5 (amended): the `scenario:new` event broadcast at round start carries
the entire scenario object, its hidden ideal point included; consequently two
rounds whose generated content is identical except for the ideal point
produce different payloads (the ideal point flows to connected peers before
the round is scored). -/
theorem C5_scenarioNew_payload (players : Registry) (round now : ℕ) (env : GenEnv)
    (hne : players.length ≠ 0) :
    ∃ scn timer,
      startNewScenarioStep players round now env =
        ([Event.scenarioLoading, Event.scenarioNew scn], some (scn, timer)) ∧
      scn.idealResponse = (resolveContent env).2.2.1 := by
  unfold startNewScenarioStep
  rw [if_neg hne]
  exact ⟨_, _, rfl, rfl⟩

/-- Counterexample to C5 as stated: two runs identical except for the
generated ideal point yield different `scenario:new` event lists. -/
theorem C5_counterexample :
    envA.textOut = envB.textOut ∧ envA.axesOut = envB.axesOut ∧
    (startNewScenarioStep demoRegistry1 0 0 envA).1 ≠
      (startNewScenarioStep demoRegistry1 0 0 envB).1 := by
  refine ⟨rfl, rfl, ?_⟩
  intro h
  have h' := congrArg
    (fun l => l.map (fun ev => match ev with
      | Event.scenarioNew s => s.idealResponse.axis1
      | _ => (none : Option ℚ))) h
  norm_num [startNewScenarioStep, resolveContent, generateScenarioText,
    generateDynamicAxes, generateIdealResponse, envA, envB, demoRegistry1,
    jsClampNum, clamp] at h'

/-- Witness for C5 at a concrete non-empty room. -/
theorem C5_scenarioNew_payload_witness :
    demoRegistry1.length ≠ 0 ∧
    ∃ scn timer,
      startNewScenarioStep demoRegistry1 0 0 demoEnv =
        ([Event.scenarioLoading, Event.scenarioNew scn], some (scn, timer)) ∧
      scn.idealResponse = (resolveContent demoEnv).2.2.1 :=
  ⟨by simp [demoRegistry1],
    C5_scenarioNew_payload demoRegistry1 0 0 demoEnv (by simp [demoRegistry1])⟩

theorem resolveContent_ideal_cases (env : GenEnv) :
    (resolveContent env).2.2.1 = getRandomIdeal env.randA1 env.randA2 ∨
    ∃ a1 a2 act, env.idealOut = .innerJson a1 a2 act ∧
      (resolveContent env).2.2.1 = ⟨jsClampNum a1, jsClampNum a2, act⟩ := by
  unfold resolveContent
  cases htext : generateScenarioText env.textOut with
  | error e => exact Or.inl rfl
  | ok s =>
    cases haxes : generateDynamicAxes env.axesOut with
    | error e => exact Or.inl rfl
    | ok v =>
      cases hio : env.idealOut with
      | timeout => exact Or.inl rfl
      | httpError status => exact Or.inl rfl
      | bodyNotJson => exact Or.inl rfl
      | respFieldNotString => exact Or.inl rfl
      | innerNotJson => exact Or.inl rfl
      | innerJson a1 a2 act => exact Or.inr ⟨a1, a2, act, rfl, rfl⟩

/-- C6 (amended): for each generation operation, a timeout, a non-2xx
response, or a non-JSON payload (where JSON is expected) makes the operation
throw and is recovered in `startNewScenario`'s catch by that operation's
fallback — a pick from the static pool for the text, the fixed default axis
pair, a random ideal point (whose coordinates lie in [−1, 1] when the
`Math.random()` draws lie in [0, 1)); a failed feedback fetch is recovered by
the templated sentences only when the ideal action is a string — otherwise
the template itself throws, so the scoring path CAN raise. Successfully
parsed JSON is never schema-validated: a wrong-schema ideal payload is
accepted as-is with `usedFallback = false`, its coordinates clamped with
NaN propagating, so the resolved coordinates are only guaranteed in [−1, 1]
when they are numbers at all. `usedFallback` is set exactly on the fallback
paths. (For the axes operation's schema non-recovery see the
counterexample.) -/
theorem C6_generation_fallbacks (env : GenEnv)
    (hr1 : 0 ≤ env.randA1) (hr1' : env.randA1 < 1)
    (hr2 : 0 ≤ env.randA2) (hr2' : env.randA2 < 1) :
    (generateScenarioText env.textOut = .error () →
      resolveContent env =
        (pickFallback env.fallbackPick, getDefaultAxes,
         getRandomIdeal env.randA1 env.randA2, true)) ∧
    (∀ s, generateScenarioText env.textOut = .ok s →
      generateDynamicAxes env.axesOut = .error () →
      (resolveContent env).2.1 = getDefaultAxes ∧
      (resolveContent env).2.2.1 = getRandomIdeal env.randA1 env.randA2 ∧
      (resolveContent env).2.2.2 = true) ∧
    (∀ s v, generateScenarioText env.textOut = .ok s →
      generateDynamicAxes env.axesOut = .ok v →
      generateIdealResponse env.idealOut = .error () →
      (resolveContent env).2.2.1 = getRandomIdeal env.randA1 env.randA2 ∧
      (resolveContent env).2.2.2 = true) ∧
    (∀ s v a1 a2 act, generateScenarioText env.textOut = .ok s →
      generateDynamicAxes env.axesOut = .ok v →
      env.idealOut = .innerJson a1 a2 act →
      (resolveContent env).2.2.1 = ⟨jsClampNum a1, jsClampNum a2, act⟩ ∧
      (resolveContent env).2.2.2 = false) ∧
    ((∀ q, (resolveContent env).2.2.1.axis1 = some q → -1 ≤ q ∧ q ≤ 1) ∧
     (∀ q, (resolveContent env).2.2.1.axis2 = some q → -1 ≤ q ∧ q ≤ 1)) ∧
    (∀ (scn : Scenario) (t1 t2 : ℚ) (o1 o2 : FeedbackOutcome),
      generateFeedback o1 = .error () ∨ generateFeedback o2 = .error () →
      (∀ act, scn.idealResponse.idealAction = some act →
        resolveFeedback scn t1 t2 o1 o2 =
          .ok ("The ideal approach would have been " ++ act.toLower ++ ".",
            "The team chose a " ++ (if 0 < t1 then "more direct" else "more avoidant") ++
              " and " ++ (if 0 < t2 then "more empathetic" else "more harsh") ++
              " approach.")) ∧
      (scn.idealResponse.idealAction = none →
        resolveFeedback scn t1 t2 o1 o2 = .error ())) := by
  refine ⟨?_, ?_, ?_, ?_, ?_, ?_⟩
  · intro h
    unfold resolveContent
    rw [h]
  · intro s hs ha
    unfold resolveContent
    rw [hs, ha]
    exact ⟨rfl, rfl, rfl⟩
  · intro s v hs ha hi
    unfold resolveContent
    rw [hs, ha, hi]
    exact ⟨rfl, rfl⟩
  · intro s v a1 a2 act hs ha hio
    unfold resolveContent
    rw [hs, ha, hio]
    exact ⟨rfl, rfl⟩
  · rcases resolveContent_ideal_cases env with h | ⟨a1, a2, act, _, h⟩
    · rw [h]
      constructor
      · intro q hq
        simp only [getRandomIdeal, Option.some.injEq] at hq
        subst hq
        exact ⟨by linarith, by linarith⟩
      · intro q hq
        simp only [getRandomIdeal, Option.some.injEq] at hq
        subst hq
        exact ⟨by linarith, by linarith⟩
    · rw [h]
      constructor
      · intro q hq
        cases a1 with
        | none => simp [jsClampNum] at hq
        | some x =>
          simp only [jsClampNum, Option.some.injEq] at hq
          subst hq
          exact ⟨neg_one_le_clamp x, clamp_le_one x⟩
      · intro q hq
        cases a2 with
        | none => simp [jsClampNum] at hq
        | some x =>
          simp only [jsClampNum, Option.some.injEq] at hq
          subst hq
          exact ⟨neg_one_le_clamp x, clamp_le_one x⟩
  · intro scn t1 t2 o1 o2 hf
    constructor
    · intro act hact
      unfold resolveFeedback
      cases ho1 : generateFeedback o1 with
      | error e =>
        cases ho2 : generateFeedback o2 with
        | error e2 => rw [hact]
        | ok b => rw [hact]
      | ok a =>
        cases ho2 : generateFeedback o2 with
        | error e2 => rw [hact]
        | ok b =>
          exfalso
          rcases hf with hf | hf
          · rw [ho1] at hf
            exact Except.noConfusion hf
          · rw [ho2] at hf
            exact Except.noConfusion hf
    · intro hnone
      unfold resolveFeedback
      cases ho1 : generateFeedback o1 with
      | error e =>
        cases ho2 : generateFeedback o2 with
        | error e2 => rw [hnone]
        | ok b => rw [hnone]
      | ok a =>
        cases ho2 : generateFeedback o2 with
        | error e2 => rw [hnone]
        | ok b =>
          exfalso
          rcases hf with hf | hf
          · rw [ho1] at hf
            exact Except.noConfusion hf
          · rw [ho2] at hf
            exact Except.noConfusion hf

/-- Counterexample to C6 as stated: a 2xx response whose body is valid JSON
of the wrong schema (`{}`) is accepted as the round's axes object instead of
being replaced by the default axis pair; and the same wrong-schema payload on
the ideal fetch yields an ideal point with NaN coordinates and an undefined
action — not the random in-[−1,1] fallback — with `usedFallback` still
false. -/
theorem C6_counterexample :
    axesSchemaOk (JValue.jobj []) = false ∧
    (resolveContent envC).2.1 = JValue.jobj [] ∧
    JValue.jobj [] ≠ getDefaultAxes ∧
    (resolveContent envD).2.2.1 = ⟨none, none, none⟩ ∧
    (resolveContent envD).2.2.1 ≠ getRandomIdeal envD.randA1 envD.randA2 ∧
    (resolveContent envD).2.2.2 = false := by
  refine ⟨rfl, rfl, ?_, rfl, ?_, rfl⟩
  · intro h
    simp [getDefaultAxes] at h
  · intro h
    rw [show (resolveContent envD).2.2.1 = (⟨none, none, none⟩ : Ideal) from rfl] at h
    simp [getRandomIdeal] at h

/-- Witness for C6 at the all-timeout generation environment. -/
theorem C6_generation_fallbacks_witness :
    ((0 : ℚ) ≤ 0 ∧ (0 : ℚ) < 1) ∧
    ((generateScenarioText demoEnv.textOut = .error () →
      resolveContent demoEnv =
        (pickFallback demoEnv.fallbackPick, getDefaultAxes,
         getRandomIdeal demoEnv.randA1 demoEnv.randA2, true)) ∧
    (∀ s, generateScenarioText demoEnv.textOut = .ok s →
      generateDynamicAxes demoEnv.axesOut = .error () →
      (resolveContent demoEnv).2.1 = getDefaultAxes ∧
      (resolveContent demoEnv).2.2.1 = getRandomIdeal demoEnv.randA1 demoEnv.randA2 ∧
      (resolveContent demoEnv).2.2.2 = true) ∧
    (∀ s v, generateScenarioText demoEnv.textOut = .ok s →
      generateDynamicAxes demoEnv.axesOut = .ok v →
      generateIdealResponse demoEnv.idealOut = .error () →
      (resolveContent demoEnv).2.2.1 = getRandomIdeal demoEnv.randA1 demoEnv.randA2 ∧
      (resolveContent demoEnv).2.2.2 = true) ∧
    (∀ s v a1 a2 act, generateScenarioText demoEnv.textOut = .ok s →
      generateDynamicAxes demoEnv.axesOut = .ok v →
      demoEnv.idealOut = .innerJson a1 a2 act →
      (resolveContent demoEnv).2.2.1 = ⟨jsClampNum a1, jsClampNum a2, act⟩ ∧
      (resolveContent demoEnv).2.2.2 = false) ∧
    ((∀ q, (resolveContent demoEnv).2.2.1.axis1 = some q → -1 ≤ q ∧ q ≤ 1) ∧
     (∀ q, (resolveContent demoEnv).2.2.1.axis2 = some q → -1 ≤ q ∧ q ≤ 1)) ∧
    (∀ (scn : Scenario) (t1 t2 : ℚ) (o1 o2 : FeedbackOutcome),
      generateFeedback o1 = .error () ∨ generateFeedback o2 = .error () →
      (∀ act, scn.idealResponse.idealAction = some act →
        resolveFeedback scn t1 t2 o1 o2 =
          .ok ("The ideal approach would have been " ++ act.toLower ++ ".",
            "The team chose a " ++ (if 0 < t1 then "more direct" else "more avoidant") ++
              " and " ++ (if 0 < t2 then "more empathetic" else "more harsh") ++
              " approach.")) ∧
      (scn.idealResponse.idealAction = none →
        resolveFeedback scn t1 t2 o1 o2 = .error ()))) :=
  ⟨⟨le_rfl, by norm_num⟩,
    C6_generation_fallbacks demoEnv le_rfl (by norm_num [demoEnv]) le_rfl
      (by norm_num [demoEnv])⟩

theorem gaugeStep_teamResponses (g : GameData) (t1 t2 : ℚ) :
    (gaugeStep g t1 t2).teamResponses = g.teamResponses := by
  unfold gaugeStep
  split_ifs <;> rfl

/-- C7: when the fourth round is scored (its scenario's ideal action being a
string, so the feedback fallback cannot crash the scoring path),
`game:complete` reports a final score equal to the arithmetic mean of the
four per-round accuracies stored in the history, and the state is reset:
round index 0, all three gauges back to 50, history cleared. -/
theorem C7_gameComplete (st : RoomState) (scn : Scenario) (d : ℚ)
    (o1 o2 : FeedbackOutcome) (act : String)
    (hscn : st.currentScenario = some scn) (hr : st.currentRound = 3)
    (hlen : st.game.teamResponses.length = 3)
    (hact : scn.idealResponse.idealAction = some act) :
    ∃ fs rs s1 s2,
      endCurrentScenario st d o1 o2 =
        ({ players := st.players, currentScenario := none, currentRound := 0,
           game := initialGameData },
         [Event.scoreLoading, Event.scoreDisplay (accuracyOf d) s1 s2,
          Event.gameComplete fs rs]) ∧
      rs.length = 4 ∧
      fs = (rs.map RoundOutcome.accuracy).sum / (rs.length : ℚ) := by
  obtain ⟨fb, hfb⟩ := resolveFeedback_isOk scn
    (updateTeamVote (st.players.map Prod.snd)).1.1
    (updateTeamVote (st.players.map Prod.snd)).1.2 o1 o2 act hact
  simp only [endCurrentScenario, hscn, hr, hfb]
  split
  case isFalse h =>
    exact absurd (by norm_num [MAX_ROUNDS]) h
  case isTrue =>
    refine ⟨_, _, _, _, rfl, ?_, ?_⟩
    · rw [List.length_append, gaugeStep_teamResponses, hlen]
      rfl
    · rw [List.length_append, gaugeStep_teamResponses, hlen]
      norm_num [MAX_ROUNDS]

/-- Witness for C7 at a concrete room finishing its last round. -/
theorem C7_gameComplete_witness :
    (demoStateRound3.currentScenario = some demoScenario ∧
      demoStateRound3.currentRound = 3 ∧
      demoStateRound3.game.teamResponses.length = 3 ∧
      demoScenario.idealResponse.idealAction = some "Stay calm") ∧
    ∃ fs rs s1 s2,
      endCurrentScenario demoStateRound3 0 .timeout .timeout =
        ({ players := demoStateRound3.players, currentScenario := none,
           currentRound := 0, game := initialGameData },
         [Event.scoreLoading, Event.scoreDisplay (accuracyOf 0) s1 s2,
          Event.gameComplete fs rs]) ∧
      rs.length = 4 ∧
      fs = (rs.map RoundOutcome.accuracy).sum / (rs.length : ℚ) :=
  ⟨⟨rfl, rfl, rfl, rfl⟩,
    C7_gameComplete demoStateRound3 demoScenario 0 .timeout .timeout "Stay calm"
      rfl rfl rfl rfl⟩

/-- C8: the scenario created for round `i < 4` gets duration
`ROUND_DURATIONS[i]` from the fixed schedule `[30000, 20000, 10000, 5000]`,
the countdown timer is armed with exactly that duration, and the schedule is
strictly decreasing across rounds. -/
theorem C8_round_durations (players : Registry) (now : ℕ) (env : GenEnv) (i : ℕ)
    (hne : players.length ≠ 0) (hi : i < 4) :
    (∃ scn : Scenario,
      (startNewScenarioStep players i now env).2 = some (scn, scn.duration) ∧
      scn.duration = ROUND_DURATIONS.getD i 0) ∧
    ROUND_DURATIONS = [30000, 20000, 10000, 5000] ∧
    (∀ j k : Fin 4, j < k →
      ROUND_DURATIONS.getD k.val 0 < ROUND_DURATIONS.getD j.val 0) := by
  refine ⟨?_, rfl, by decide⟩
  unfold startNewScenarioStep
  rw [if_neg hne]
  exact ⟨_, rfl, rfl⟩

/-- Witness for C8 at round index 1 in a concrete one-player room. -/
theorem C8_round_durations_witness :
    (demoRegistry1.length ≠ 0 ∧ (1 : ℕ) < 4) ∧
    ((∃ scn : Scenario,
      (startNewScenarioStep demoRegistry1 1 0 demoEnv).2 = some (scn, scn.duration) ∧
      scn.duration = ROUND_DURATIONS.getD 1 0) ∧
    ROUND_DURATIONS = [30000, 20000, 10000, 5000] ∧
    (∀ j k : Fin 4, j < k →
      ROUND_DURATIONS.getD k.val 0 < ROUND_DURATIONS.getD j.val 0)) :=
  ⟨⟨by simp [demoRegistry1], by norm_num⟩,
    C8_round_durations demoRegistry1 0 demoEnv 1 (by simp [demoRegistry1]) (by norm_num)⟩

/-- C9 (amended): the round-start routine invoked with zero registered
players returns without emitting `scenario:loading` and without creating a
scenario; and a join schedules the routine (always with the fixed 3000 ms
delay) exactly when the post-join registry has size 1 and no scenario is
live — which covers the first join into an empty room, but also a rejoin by
the sole existing player under the same playerId. -/
theorem C9_empty_room_guard :
    (∀ (round now : ℕ) (env : GenEnv),
      startNewScenarioStep [] round now env = ([], none)) ∧
    (∀ (players : Registry) (scnOpt : Option Scenario) (sid : String) (pd : JoinData),
      ((joinHandler players scnOpt sid pd).scheduledDelay = some 3000 ↔
        (joinHandler players scnOpt sid pd).players.length = 1 ∧ scnOpt = none) ∧
      ((joinHandler players scnOpt sid pd).scheduledDelay = none ∨
        (joinHandler players scnOpt sid pd).scheduledDelay = some 3000)) := by
  constructor
  · intro round now env
    rfl
  · intro players scnOpt sid pd
    unfold joinHandler
    by_cases hcap : MAX_PLAYERS ≤ players.length
    · rw [if_pos hcap]
      refine ⟨⟨fun h => by simp at h, fun h => ?_⟩, Or.inl rfl⟩
      exfalso
      have h1 : players.length = 1 := h.1
      rw [h1] at hcap
      norm_num [MAX_PLAYERS] at hcap
    · rw [if_neg hcap]
      by_cases hcond :
          (jsMapSet players pd.playerId (mkPlayer sid pd)).length = 1 ∧ scnOpt.isNone = true
      · refine ⟨⟨fun _ => ⟨hcond.1, Option.isNone_iff_eq_none.mp hcond.2⟩, fun _ => ?_⟩, ?_⟩
        · show (if (jsMapSet players pd.playerId (mkPlayer sid pd)).length = 1 ∧
              scnOpt.isNone = true then some 3000 else (none : Option ℕ)) = some 3000
          rw [if_pos hcond]
        · right
          show (if (jsMapSet players pd.playerId (mkPlayer sid pd)).length = 1 ∧
              scnOpt.isNone = true then some 3000 else (none : Option ℕ)) = some 3000
          rw [if_pos hcond]
      · refine ⟨⟨fun h => ?_, fun h => ?_⟩, ?_⟩
        · exfalso
          have h' : (if (jsMapSet players pd.playerId (mkPlayer sid pd)).length = 1 ∧
              scnOpt.isNone = true then some 3000 else (none : Option ℕ)) = some 3000 := h
          rw [if_neg hcond] at h'
          exact Option.noConfusion h'
        · exfalso
          exact hcond ⟨h.1, Option.isNone_iff_eq_none.mpr h.2⟩
        · left
          show (if (jsMapSet players pd.playerId (mkPlayer sid pd)).length = 1 ∧
              scnOpt.isNone = true then some 3000 else (none : Option ℕ)) = none
          rw [if_neg hcond]

/-- Counterexample to C9 as stated: a rejoin by the sole existing player
(same playerId, new socket) on a NON-empty room also schedules the 3000 ms
round-start timer. -/
theorem C9_counterexample :
    (joinHandler demoRegistry1 none "s2" (demoJoin "p1")).scheduledDelay = some 3000 ∧
    demoRegistry1 ≠ ([] : Registry) := by
  constructor
  · rfl
  · simp [demoRegistry1]

/-- C10: a join carrying a playerId already present in a below-capacity
registry replaces the old entry — the size does not grow, the key now maps to
the new player object, and keys stay unique — while the same rejoin against a
full room is rejected by the capacity check even though it would not grow the
room. -/
theorem C10_rejoin (players : Registry) (scnOpt : Option Scenario) (sid : String)
    (pd : JoinData) (hnodup : (players.map Prod.fst).Nodup) :
    (pd.playerId ∈ players.map Prod.fst → players.length < 8 →
      ((joinHandler players scnOpt sid pd).players.length = players.length ∧
       jsMapGet (joinHandler players scnOpt sid pd).players pd.playerId =
         some (mkPlayer sid pd) ∧
       ((joinHandler players scnOpt sid pd).players.map Prod.fst).Nodup)) ∧
    (players.length = 8 →
      joinHandler players scnOpt sid pd = ⟨players, true, none⟩) := by
  constructor
  · intro hmem hlt
    have hcap : ¬ MAX_PLAYERS ≤ players.length := by
      unfold MAX_PLAYERS
      omega
    unfold joinHandler
    rw [if_neg hcap]
    have hany : players.any (fun e => e.1 = pd.playerId) = true :=
      (any_key_iff _ _).mpr hmem
    exact ⟨jsMapSet_length_of_mem _ _ _ hany, jsMapGet_jsMapSet_self _ _ _,
      jsMapSet_nodup_keys _ _ _ hnodup⟩
  · intro h8
    unfold joinHandler
    rw [if_pos (by simp [h8, MAX_PLAYERS])]

/-- Witness for C10: a rejoin under playerId `"p1"` into a concrete
one-player room keeps the size at 1 and overwrites the entry. -/
theorem C10_rejoin_witness :
    ((demoRegistry1.map Prod.fst).Nodup ∧ "p1" ∈ demoRegistry1.map Prod.fst ∧
      demoRegistry1.length < 8) ∧
    ((joinHandler demoRegistry1 none "s2" (demoJoin "p1")).players.length =
        demoRegistry1.length ∧
      jsMapGet (joinHandler demoRegistry1 none "s2" (demoJoin "p1")).players "p1" =
        some (mkPlayer "s2" (demoJoin "p1")) ∧
      ((joinHandler demoRegistry1 none "s2" (demoJoin "p1")).players.map Prod.fst).Nodup) :=
  ⟨⟨by simp [demoRegistry1], by simp [demoRegistry1], by simp [demoRegistry1]⟩,
    (C10_rejoin demoRegistry1 none "s2" (demoJoin "p1") (by simp [demoRegistry1])).1
      (by simp [demoRegistry1, demoJoin]) (by simp [demoRegistry1])⟩
